import Mathlib

/-!
Shallow embedding of the payment-gateway repository
(internal/domain/transaction.go, internal/domain/payment_action.go,
internal/luhn/validator.go, internal/service/service.go,
internal/store/store.go) together with theorems settling the frozen
claims about the specification.

Machine integers are modelled as Nat with explicit reduction modulo 2^64
exactly where the Go code performs uint64 arithmetic.  Fallible Go
functions returning `error` are modelled as `Option String` (some msg =
the error, none = nil) or `Except` where a value is also returned.
-/

/-- Go uint64 modulus. -/
def U64 : Nat := 2 ^ 64

/-- Go uint64 addition (wraps modulo 2^64). -/
def u64add (a b : Nat) : Nat := (a + b) % U64

abbrev UUID := Nat

/-- domain.Amount: the canonical amount domain. -/
structure Amount where
  minorUnits : Nat
  currency   : String
  exponent   : Nat
  deriving DecidableEq

/-- domain.Expiry. -/
structure Expiry where
  month : Int
  year  : Int
  deriving DecidableEq

/-- domain.PaymentSource. -/
structure PaymentSource where
  pan    : String
  cvv    : String
  expiry : Expiry
  deriving DecidableEq

/-- domain.PaymentActionType is a Go string type. -/
abbrev PaymentActionType := String

/-- domain.PaymentActionStatus is a Go string type. -/
abbrev PaymentActionStatus := String

def patAuthorization : PaymentActionType := "authorization"

def patVoid : PaymentActionType := "void"

def patCapture : PaymentActionType := "capture"

def patRefund : PaymentActionType := "refund"

def pasSuccess : PaymentActionStatus := "success"

def pasFailed : PaymentActionStatus := "failed"

/-- domain.PaymentAction.  `Amount` is a pointer in Go (nil for void
actions), hence `Option Amount` here. -/
structure PaymentAction where
  type          : PaymentActionType
  status        : PaymentActionStatus
  processedDate : Nat
  amount        : Option Amount
  requestId     : UUID
  deriving DecidableEq

def PaymentAction.authorizationSuccess (p : PaymentAction) : Bool :=
  p.type == patAuthorization && p.status == pasSuccess

def PaymentAction.voidSuccess (p : PaymentAction) : Bool :=
  p.type == patVoid && p.status == pasSuccess

def PaymentAction.captureSuccess (p : PaymentAction) : Bool :=
  p.type == patCapture && p.status == pasSuccess

def PaymentAction.refundSuccess (p : PaymentAction) : Bool :=
  p.type == patRefund && p.status == pasSuccess

/-- MinorUnits behind the `*Amount` pointer.  The Go code dereferences
`pa.Amount` directly; the pointer is non-nil for every amount-bearing
action the code reads (void actions, the only nil case, are never read
for their amount). -/
def paMinor (p : PaymentAction) : Nat :=
  (p.amount.map Amount.minorUnits).getD 0

/-- domain.Transaction. -/
structure Transaction where
  id                   : UUID
  requestId            : UUID
  authorizationId      : UUID
  paymentSource        : PaymentSource
  amount               : Amount
  authorizedAmount     : Amount
  capturedAmount       : Amount
  refundedAmount       : Amount
  paymentActionSummary : List PaymentAction
  deriving DecidableEq

/-- Transaction.AuthorizationDate: date of the first successful
authorization action, nil if none. -/
def Transaction.authorizationDate (t : Transaction) : Option Nat :=
  (t.paymentActionSummary.find? (fun pa => pa.authorizationSuccess)).map
    (fun pa => pa.processedDate)

/-- Transaction.IsRequestIDIdempotent. -/
def Transaction.isRequestIDIdempotent (t : Transaction)
    (pat : PaymentActionType) (requestId : UUID) : Bool :=
  t.paymentActionSummary.any (fun pa => pa.type == pat && pa.requestId == requestId)

/-- Transaction.Voided. -/
def Transaction.voided (t : Transaction) : Bool :=
  t.paymentActionSummary.any (fun pa => pa.voidSuccess)

/-- Transaction.Refunded. -/
def Transaction.refunded (t : Transaction) : Bool :=
  t.paymentActionSummary.any (fun pa => pa.refundSuccess)

/-- Transaction.Captured. -/
def Transaction.captured (t : Transaction) : Bool :=
  t.paymentActionSummary.any (fun pa => pa.captureSuccess)

/-- The loop body of Transaction.Amounts: a single scan over the log
accumulating (authorized, captured, refunded) as Go uint64 variables. -/
def amountsLoop : List PaymentAction → Nat × Nat × Nat → Nat × Nat × Nat
  | [], acc => acc
  | pa :: rest, (auth, cap, ref) =>
    let auth := if pa.authorizationSuccess then paMinor pa else auth
    let cap := if pa.captureSuccess then u64add cap (paMinor pa) else cap
    let ref := if pa.refundSuccess then u64add ref (paMinor pa) else ref
    amountsLoop rest (auth, cap, ref)

/-- Transaction.Amounts: recompute the three derived totals from the
action log, carrying the transaction's currency and exponent. -/
def Transaction.amounts (t : Transaction) : Transaction :=
  let res := amountsLoop t.paymentActionSummary (0, 0, 0)
  { t with
    authorizedAmount := ⟨res.1, t.amount.currency, t.amount.exponent⟩
    capturedAmount := ⟨res.2.1, t.amount.currency, t.amount.exponent⟩
    refundedAmount := ⟨res.2.2, t.amount.currency, t.amount.exponent⟩ }

/-- Transaction.ValidateCapture.  The amount comparison is Go uint64
addition, i.e. wraps modulo 2^64. -/
def Transaction.validateCapture (t : Transaction) (a : Amount) : Option String :=
  if t.voided then some "transaction is already voided"
  else if t.refunded then some "transaction is already refunded"
  else if t.amount.currency ≠ a.currency then some "currency is different"
  else if u64add t.capturedAmount.minorUnits a.minorUnits > t.authorizedAmount.minorUnits then
    some "amount to be captured > authorized amount"
  else none

/-- Transaction.ValidateRefund. -/
def Transaction.validateRefund (t : Transaction) (a : Amount) : Option String :=
  if t.voided then some "transaction is already voided"
  else if t.amount.currency ≠ a.currency then some "currency is different"
  else if u64add t.refundedAmount.minorUnits a.minorUnits > t.capturedAmount.minorUnits then
    some "amount to be refunded > captured amount"
  else none

/-- Transaction.ValidateVoid. -/
def Transaction.validateVoid (t : Transaction) : Option String :=
  if t.voided then some "transaction is already voided"
  else if t.captured then some "transaction is already captured"
  else none

/-! ## Luhn validator (internal/luhn/validator.go) -/

/-- Numeric value of a digit character, as Go computes it from the byte. -/
def charDigit (c : Char) : Nat := c.toNat - 48

/-- Go strconv checks a byte is a decimal digit. -/
def isDigitChar (c : Char) : Bool := decide (48 ≤ c.toNat ∧ c.toNat ≤ 57)

/-- Decimal accumulation, most-significant digit first, as strconv does. -/
def digitsToNat (cs : List Char) : Nat :=
  cs.foldl (fun a c => a * 10 + charDigit c) 0

/-- 2^63, the Go int64 overflow bound. -/
def maxInt64 : Nat := 2 ^ 63

/-- Model of Go strconv.Atoi: an optional leading sign followed by at
least one decimal digit; the signed value must fit in int64, otherwise
an error (none) is returned. -/
def atoi (s : String) : Option Int :=
  match s.data with
  | [] => none
  | c :: cs =>
    let ds := if c = '-' ∨ c = '+' then cs else c :: cs
    if ds ≠ [] ∧ ds.all isDigitChar then
      let n := digitsToNat ds
      if c = '-' then
        if n ≤ maxInt64 then some (-(n : Int)) else none
      else
        if n < maxInt64 then some (n : Int) else none
    else none

/-- One Luhn step: double the digit and sum the decimal digits of the
result when it exceeds 9 (`cur%10 + cur/10` in the Go code). -/
def luhnDouble (d : Nat) : Nat :=
  let c := d * 2
  if c > 9 then c % 10 + c / 10 else c

/-- The loop of luhn.Validate, with explicit fuel (the loop strictly
shrinks `n` by division by 10, so fuel `n` always suffices). -/
def luhnGo : Nat → Nat → Nat → Nat
  | 0, _, _ => 0
  | fuel + 1, n, i =>
    if n = 0 then 0
    else (if i % 2 = 0 then luhnDouble (n % 10) else n % 10) + luhnGo fuel (n / 10) (i + 1)

/-- Luhn checksum of the decimal digits of `n`, positions counted from 1
at the least-significant digit, doubling even positions. -/
def luhnAcc (n i : Nat) : Nat := luhnGo n n i

namespace luhn

/-- luhn.Validate: parse the pan with Atoi, then run the digit loop on
the parsed integer (the loop body executes only while the value is
positive). -/
def Validate (pan : String) : Option String :=
  match atoi pan with
  | none => some "pan contains non numeric or spaces"
  | some panNum =>
    let l := if panNum > 0 then luhnAcc panNum.toNat 1 else 0
    if l % 10 ≠ 0 then some "luhn validation failed" else none

end luhn

/-! ## Service and store model (internal/service/service.go,
internal/store/store.go)

The store is modelled in-memory, faithful to the SQL statements: one
row per transaction (the card PAN is persisted stripped of spaces and
reachable from the row), an append-only list of persisted payment
actions per row, a table-wide uniqueness constraint on the payment
action request_id realised by `on conflict (request_id) do update set
request_id = excluded.request_id` (a no-op upsert), and the same no-op
upsert on the transaction request_id. -/

inductive ServiceError
  | notFound
  | unprocessable (reason : String)
  | storeFailure (msg : String)
  deriving DecidableEq

/-- domain.Authorization. -/
structure Authorization where
  requestId     : UUID
  paymentSource : PaymentSource
  amount        : Amount
  deriving DecidableEq

/-- domain.Capture. -/
structure Capture where
  requestId       : UUID
  authorizationId : UUID
  amount          : Amount
  deriving DecidableEq

/-- domain.Refund. -/
structure Refund where
  requestId       : UUID
  authorizationId : UUID
  amount          : Amount
  deriving DecidableEq

/-- domain.Void (carries no amount). -/
structure Void where
  requestId       : UUID
  authorizationId : UUID
  deriving DecidableEq

def authorisationFailurePAN : String := "4000 0000 0000 0119"

def captureFailurePAN : String := "4000 0000 0000 0259"

def refundFailurePAN : String := "4000 0000 0000 3238"

/-- store.panFailureMap. -/
def panFailureMap (pat : PaymentActionType) : Option String :=
  if pat == patCapture then some captureFailurePAN
  else if pat == patRefund then some refundFailurePAN
  else none

/-- strings.ReplaceAll(s, " ", ""). -/
def stripSpaces (s : String) : String :=
  String.mk (s.data.filter (fun c => c ≠ ' '))

/-- A payment_action row as persisted (amount and currency columns are
nullable; the exponent is not persisted at all). -/
structure StoredAction where
  type        : PaymentActionType
  status      : PaymentActionStatus
  amountMinor : Option Nat
  currency    : Option String
  requestId   : UUID
  date        : Nat
  deriving DecidableEq

/-- A transaction row joined with its card row. -/
structure StoreRow where
  id              : UUID
  requestId       : UUID
  authorizationId : UUID
  pan             : String
  amountMinor     : Nat
  currency        : String
  log             : List StoredAction
  deriving DecidableEq

abbrev Store := List StoreRow

/-- The payment_action table-wide lookup by request_id (the uniqueness
constraint the upserts conflict against). -/
def findStoredAction (s : Store) (rid : UUID) : Option StoredAction :=
  ((s.map StoreRow.log).flatten).find? (fun a => a.requestId == rid)

def zeroAmount : Amount := ⟨0, "", 0⟩

/-- How store.GetTransaction rebuilds a domain.PaymentAction from a
row: the amount is present iff the amount column is non-null, and the
exponent is hardcoded to 2. -/
def storedPaymentAction (a : StoredAction) : PaymentAction :=
  { type := a.type
    status := a.status
    processedDate := a.date
    amount := a.amountMinor.map (fun m => ⟨m, a.currency.getD "", 2⟩)
    requestId := a.requestId }

/-- How store.GetTransaction rebuilds the domain.Transaction from a row
(PaymentSource is not populated; the amount exponent is hardcoded to 2;
Amounts() is applied before returning). -/
def rowTransaction (r : StoreRow) : Transaction :=
  Transaction.amounts
    { id := r.id
      requestId := r.requestId
      authorizationId := r.authorizationId
      paymentSource := ⟨"", "", ⟨0, 0⟩⟩
      amount := ⟨r.amountMinor, r.currency, 2⟩
      authorizedAmount := zeroAmount
      capturedAmount := zeroAmount
      refundedAmount := zeroAmount
      paymentActionSummary := r.log.map storedPaymentAction }

/-- store.GetTransaction: joins transaction and payment_action by
authorization id; zero joined rows (no transaction, or a transaction
with an empty action log) yields ErrTransactionNotFound. -/
def getTransaction (s : Store) (aid : UUID) : Except ServiceError Transaction :=
  match s.find? (fun r => r.authorizationId == aid) with
  | none => Except.error ServiceError.notFound
  | some r =>
    if r.log.isEmpty then Except.error ServiceError.notFound
    else Except.ok (rowTransaction r)

/-- store.CreatePaymentAction: look up the card PAN for the transaction,
compute the action status from the PAN failure map, and insert the
action; a request_id conflict is a silent no-op upsert. -/
def createPaymentAction (s : Store) (txnId rid : UUID) (pat : PaymentActionType)
    (amount : Option Amount) (now : Nat) : Except ServiceError Store :=
  match s.find? (fun r => r.id == txnId) with
  | none => Except.error (ServiceError.storeFailure "query pan from card table")
  | some r =>
    let status :=
      match panFailureMap pat with
      | some p => if stripSpaces p == r.pan then pasFailed else pasSuccess
      | none => pasSuccess
    match findStoredAction s rid with
    | some _ => Except.ok s
    | none =>
      Except.ok (s.map (fun row =>
        if row.id == txnId then
          { row with log := row.log ++
              [⟨pat, status, amount.map Amount.minorUnits,
                amount.map Amount.currency, rid, now⟩] }
        else row))

/-- store.CreateTransaction: upsert the card by PAN (stripped of
spaces), upsert the transaction row keyed on request_id (a conflict
returns the existing ids and changes nothing), compute the
authorization status from the failure PAN, upsert the authorization
payment action keyed on request_id (a conflict inserts nothing and
returns the stored created_date), and return an in-memory transaction
built from the request with Amounts() applied.  Fresh ids are passed in
explicitly (uuid generation). -/
def createTransaction (s : Store) (auth : Authorization)
    (now freshTxnId freshAuthId : Nat) : Transaction × Store :=
  let pan := stripSpaces auth.paymentSource.pan
  let ids : UUID × UUID × Store :=
    match s.find? (fun r => r.requestId == auth.requestId) with
    | some r => (r.id, r.authorizationId, s)
    | none =>
      (freshTxnId, freshAuthId,
        s ++ [{ id := freshTxnId, requestId := auth.requestId,
                authorizationId := freshAuthId, pan := pan,
                amountMinor := auth.amount.minorUnits,
                currency := auth.amount.currency, log := [] }])
  let txnId := ids.1
  let authId := ids.2.1
  let s1 := ids.2.2
  let status := if pan == stripSpaces authorisationFailurePAN then pasFailed else pasSuccess
  let inserted : Nat × Store :=
    match findStoredAction s1 auth.requestId with
    | some a => (a.date, s1)
    | none =>
      (now, s1.map (fun row =>
        if row.id == txnId then
          { row with log := row.log ++
              [⟨patAuthorization, status, some auth.amount.minorUnits,
                some auth.amount.currency, auth.requestId, now⟩] }
        else row))
  let pa : PaymentAction :=
    { type := patAuthorization, status := status, processedDate := inserted.1
      amount := some auth.amount, requestId := auth.requestId }
  (Transaction.amounts
    { id := txnId, requestId := auth.requestId, authorizationId := authId
      paymentSource := ⟨"", "", ⟨0, 0⟩⟩
      amount := auth.amount
      authorizedAmount := zeroAmount, capturedAmount := zeroAmount
      refundedAmount := zeroAmount
      paymentActionSummary := [pa] }, inserted.2)

/-- Service.Authorize: luhn-validate the PAN (failure is wrapped as
Unprocessable), then create the transaction. -/
def serviceAuthorize (s : Store) (now freshTxnId freshAuthId : Nat)
    (auth : Authorization) : Except ServiceError Transaction × Store :=
  match luhn.Validate auth.paymentSource.pan with
  | some msg => (Except.error (ServiceError.unprocessable msg), s)
  | none =>
    let res := createTransaction s auth now freshTxnId freshAuthId
    (Except.ok res.1, res.2)

/-- Service.Capture: get the transaction, short-circuit on an
idempotent (type, requestID) replay, validate (failure wrapped as
Unprocessable), append the capture action, then re-fetch. -/
def serviceCapture (s : Store) (now : Nat) (c : Capture) :
    Except ServiceError Transaction × Store :=
  match getTransaction s c.authorizationId with
  | Except.error e => (Except.error e, s)
  | Except.ok t =>
    if t.isRequestIDIdempotent patCapture c.requestId then (Except.ok t, s)
    else
      match t.validateCapture c.amount with
      | some reason => (Except.error (ServiceError.unprocessable reason), s)
      | none =>
        match createPaymentAction s t.id c.requestId patCapture (some c.amount) now with
        | Except.error e => (Except.error e, s)
        | Except.ok s2 =>
          match getTransaction s2 c.authorizationId with
          | Except.error e => (Except.error e, s2)
          | Except.ok t2 => (Except.ok t2, s2)

/-- Service.Refund, symmetric to Capture. -/
def serviceRefund (s : Store) (now : Nat) (r : Refund) :
    Except ServiceError Transaction × Store :=
  match getTransaction s r.authorizationId with
  | Except.error e => (Except.error e, s)
  | Except.ok t =>
    if t.isRequestIDIdempotent patRefund r.requestId then (Except.ok t, s)
    else
      match t.validateRefund r.amount with
      | some reason => (Except.error (ServiceError.unprocessable reason), s)
      | none =>
        match createPaymentAction s t.id r.requestId patRefund (some r.amount) now with
        | Except.error e => (Except.error e, s)
        | Except.ok s2 =>
          match getTransaction s2 r.authorizationId with
          | Except.error e => (Except.error e, s2)
          | Except.ok t2 => (Except.ok t2, s2)

/-- Service.Void: as Capture/Refund but validated by ValidateVoid and
appending an action with a nil amount. -/
def serviceVoid (s : Store) (now : Nat) (v : Void) :
    Except ServiceError Transaction × Store :=
  match getTransaction s v.authorizationId with
  | Except.error e => (Except.error e, s)
  | Except.ok t =>
    if t.isRequestIDIdempotent patVoid v.requestId then (Except.ok t, s)
    else
      match t.validateVoid with
      | some reason => (Except.error (ServiceError.unprocessable reason), s)
      | none =>
        match createPaymentAction s t.id v.requestId patVoid none now with
        | Except.error e => (Except.error e, s)
        | Except.ok s2 =>
          match getTransaction s2 v.authorizationId with
          | Except.error e => (Except.error e, s2)
          | Except.ok t2 => (Except.ok t2, s2)

/-! ## Specification-side measuring definitions

These definitions follow the words of the specification (not the code)
and are used only to compare the code's behaviour against the spec's
description. -/

/-- Modelled from the spec: the amount of the last successful
authorization action in the log, with an explicit default. -/
def lastSuccessfulAuthAmount (log : List PaymentAction) (dflt : Nat) : Nat :=
  ((log.filter (fun pa => pa.authorizationSuccess)).map paMinor).getLastD dflt

/-- Modelled from the spec: the sum of the amounts of all successful
capture actions, as an unbounded natural number. -/
def sumSuccessfulCaptures (log : List PaymentAction) : Nat :=
  ((log.filter (fun pa => pa.captureSuccess)).map paMinor).sum

/-- Modelled from the spec: the sum of the amounts of all successful
refund actions, as an unbounded natural number. -/
def sumSuccessfulRefunds (log : List PaymentAction) : Nat :=
  ((log.filter (fun pa => pa.refundSuccess)).map paMinor).sum

/-- Modelled from the spec: Luhn over a digit list, least-significant
digit first, 1-indexed, doubling positions 2, 4, 6, ... and subtracting
9 from any doubled value greater than 9. -/
def specLuhnList (i : Nat) : List Nat → Nat
  | [] => 0
  | d :: ds =>
    (if i % 2 = 0 then (if d * 2 > 9 then d * 2 - 9 else d * 2) else d) + specLuhnList (i + 1) ds

/-- Modelled from the spec: Luhn checksum of the digit characters of a
string, starting from the least-significant digit. -/
def specLuhnSum (s : String) : Nat :=
  specLuhnList 1 (s.data.reverse.map charDigit)

/-- Value of a digit list, least-significant digit first. -/
def natOfRevDigits : List Nat → Nat
  | [] => 0
  | d :: ds => d + 10 * natOfRevDigits ds

/-! ## Concrete instances used by counterexamples and witnesses -/

/-- A transaction authorized for 5 whose log carries a successful
capture of 2^64 - 1 minor units. -/
def c1cex : Transaction :=
  { id := 1, requestId := 2, authorizationId := 3
    paymentSource := ⟨"4532015112830366", "123", ⟨1, 30⟩⟩
    amount := ⟨10000, "GBP", 2⟩
    authorizedAmount := zeroAmount, capturedAmount := zeroAmount
    refundedAmount := zeroAmount
    paymentActionSummary :=
      [⟨patAuthorization, pasSuccess, 0, some ⟨5, "GBP", 2⟩, 10⟩,
       ⟨patCapture, pasSuccess, 1, some ⟨18446744073709551615, "GBP", 2⟩, 11⟩] }

/-- A plainly authorized transaction (10000 minor units). -/
def c1wit : Transaction :=
  { id := 1, requestId := 2, authorizationId := 3
    paymentSource := ⟨"4532015112830366", "123", ⟨1, 30⟩⟩
    amount := ⟨10000, "GBP", 2⟩
    authorizedAmount := zeroAmount, capturedAmount := zeroAmount
    refundedAmount := zeroAmount
    paymentActionSummary :=
      [⟨patAuthorization, pasSuccess, 0, some ⟨10000, "GBP", 2⟩, 10⟩] }

/-- A stored transaction that has been authorized and then voided. -/
def c2row : StoreRow :=
  ⟨1, 10, 100, "4532015112830366", 10000, "GBP",
    [⟨patAuthorization, pasSuccess, some 10000, some "GBP", 10, 0⟩,
     ⟨patVoid, pasSuccess, none, none, 11, 1⟩]⟩

def c2store : Store := [c2row]

def c2t : Transaction := rowTransaction c2row

/-- A stored transaction with a successful authorization (requestID 10)
followed by a successful capture of 5000 (requestID 11). -/
def c3row : StoreRow :=
  ⟨1, 10, 100, "4532015112830366", 10000, "GBP",
    [⟨patAuthorization, pasSuccess, some 10000, some "GBP", 10, 0⟩,
     ⟨patCapture, pasSuccess, some 5000, some "GBP", 11, 1⟩]⟩

def c3store : Store := [c3row]

/-- A byte-identical replay of the authorize request that created
`c3row`. -/
def c3auth : Authorization :=
  ⟨10, ⟨"4532015112830366", "123", ⟨1, 30⟩⟩, ⟨10000, "GBP", 2⟩⟩

/-- What the authorize replay returns. -/
def c3returned : Transaction := (createTransaction c3store c3auth 5 2 200).1

/-- The current aggregate state of the stored transaction. -/
def c3current : Transaction := rowTransaction c3row

/-- A transaction whose successful capture amounts sum to exactly
2^64. -/
def c4cex : Transaction :=
  { id := 1, requestId := 2, authorizationId := 3
    paymentSource := ⟨"4532015112830366", "123", ⟨1, 30⟩⟩
    amount := ⟨10000, "GBP", 2⟩
    authorizedAmount := zeroAmount, capturedAmount := zeroAmount
    refundedAmount := zeroAmount
    paymentActionSummary :=
      [⟨patCapture, pasSuccess, 0, some ⟨18446744073709551615, "GBP", 2⟩, 10⟩,
       ⟨patCapture, pasSuccess, 1, some ⟨1, "GBP", 2⟩, 11⟩] }

/-- An all-digit, Luhn-valid string of twenty nines, whose numeric
value exceeds 2^63 - 1. -/
def c5str : String := "99999999999999999999"

/-- A stored transaction authorized for 10000 with two successful
captures totalling 7000 (the spec's partial-capture scenario). -/
def c7row : StoreRow :=
  ⟨1, 10, 100, "4532015112830366", 10000, "GBP",
    [⟨patAuthorization, pasSuccess, some 10000, some "GBP", 10, 0⟩,
     ⟨patCapture, pasSuccess, some 4000, some "GBP", 11, 1⟩,
     ⟨patCapture, pasSuccess, some 3000, some "GBP", 12, 2⟩]⟩

def c7store : Store := [c7row]

def c7t : Transaction := rowTransaction c7row

/-- A stored transaction whose log contains a FAILED capture action
with requestID 7. -/
def c8row : StoreRow :=
  ⟨1, 10, 100, "4000 0000 0000 0259", 10000, "GBP",
    [⟨patAuthorization, pasSuccess, some 10000, some "GBP", 10, 0⟩,
     ⟨patCapture, pasFailed, some 4000, some "GBP", 7, 1⟩,
     ⟨patRefund, pasFailed, some 100, some "GBP", 8, 2⟩]⟩

def c8store : Store := [c8row]

def c8t : Transaction := rowTransaction c8row

/-- A transaction with a failed authorization followed by a successful
zero-amount capture (reachable: ValidateCapture accepts amount 0 when
nothing is authorized). -/
def c10cex : Transaction :=
  { id := 1, requestId := 2, authorizationId := 3
    paymentSource := ⟨"4000000000000119", "123", ⟨1, 30⟩⟩
    amount := ⟨10000, "GBP", 2⟩
    authorizedAmount := zeroAmount, capturedAmount := zeroAmount
    refundedAmount := zeroAmount
    paymentActionSummary :=
      [⟨patAuthorization, pasFailed, 0, some ⟨10000, "GBP", 2⟩, 10⟩,
       ⟨patCapture, pasSuccess, 1, some ⟨0, "GBP", 2⟩, 11⟩] }

/-- A transaction whose only action is a failed authorization. -/
def c10wit : Transaction :=
  { id := 1, requestId := 2, authorizationId := 3
    paymentSource := ⟨"4000000000000119", "123", ⟨1, 30⟩⟩
    amount := ⟨10000, "GBP", 2⟩
    authorizedAmount := zeroAmount, capturedAmount := zeroAmount
    refundedAmount := zeroAmount
    paymentActionSummary :=
      [⟨patAuthorization, pasFailed, 0, some ⟨10000, "GBP", 2⟩, 10⟩] }

/-! ## Sanity checks on the embedding -/

example : luhn.Validate "4532015112830366" = none := by decide
example : luhn.Validate "4532015112830367" = some "luhn validation failed" := by decide
example : luhn.Validate "abcd" = some "pan contains non numeric or spaces" := by decide
example : luhn.Validate "49927398716" = none := by decide
example : luhn.Validate "1234567812345670" = none := by decide
example : luhn.Validate "1234567812345678" = some "luhn validation failed" := by decide

/-! ## Helper lemmas -/

theorem u64add_lt (a b : Nat) : u64add a b < U64 :=
  Nat.mod_lt _ (by decide)

theorem lastAuth_cons (pa : PaymentAction) (rest : List PaymentAction) (a : Nat) :
    lastSuccessfulAuthAmount (pa :: rest) a =
      lastSuccessfulAuthAmount rest (if pa.authorizationSuccess then paMinor pa else a) := by
  rcases Bool.eq_false_or_eq_true pa.authorizationSuccess with h | h
  · simp only [lastSuccessfulAuthAmount, List.filter_cons, h, eq_self_iff_true]
    rw [if_pos trivial, if_pos trivial, List.map_cons, List.getLastD_cons]
  · simp only [lastSuccessfulAuthAmount, List.filter_cons, h,
      if_neg (show ¬(false = true) by simp)]

theorem sumCaptures_cons (pa : PaymentAction) (rest : List PaymentAction) :
    sumSuccessfulCaptures (pa :: rest) =
      (if pa.captureSuccess then paMinor pa else 0) + sumSuccessfulCaptures rest := by
  cases h : pa.captureSuccess <;> simp [sumSuccessfulCaptures, List.filter_cons, h]

theorem sumRefunds_cons (pa : PaymentAction) (rest : List PaymentAction) :
    sumSuccessfulRefunds (pa :: rest) =
      (if pa.refundSuccess then paMinor pa else 0) + sumSuccessfulRefunds rest := by
  cases h : pa.refundSuccess <;> simp [sumSuccessfulRefunds, List.filter_cons, h]

theorem amountsLoop_eq (log : List PaymentAction) :
    ∀ a c r, c < U64 → r < U64 →
      amountsLoop log (a, c, r) =
        (lastSuccessfulAuthAmount log a,
         (c + sumSuccessfulCaptures log) % U64,
         (r + sumSuccessfulRefunds log) % U64) := by
  induction log with
  | nil =>
    intro a c r hc hr
    simp [amountsLoop, lastSuccessfulAuthAmount, sumSuccessfulCaptures,
      sumSuccessfulRefunds, Nat.mod_eq_of_lt hc, Nat.mod_eq_of_lt hr]
  | cons pa rest ih =>
    intro a c r hc hr
    simp only [amountsLoop]
    rw [lastAuth_cons, sumCaptures_cons, sumRefunds_cons]
    cases hauth : pa.authorizationSuccess <;>
      cases hcap : pa.captureSuccess <;>
        cases href : pa.refundSuccess <;>
    · simp only [Bool.false_eq_true, if_false, if_true]
      first
      | rw [ih _ _ _ hc hr]
      | rw [ih _ _ _ hc (u64add_lt _ _)]
      | rw [ih _ _ _ (u64add_lt _ _) hr]
      | rw [ih _ _ _ (u64add_lt _ _) (u64add_lt _ _)]
      simp [u64add, Nat.mod_add_mod, Nat.add_assoc]

theorem serviceCapture_idem {s : Store} {now : Nat} {c : Capture} {t : Transaction}
    (hget : getTransaction s c.authorizationId = Except.ok t)
    (hid : t.isRequestIDIdempotent patCapture c.requestId = true) :
    serviceCapture s now c = (Except.ok t, s) := by
  simp [serviceCapture, hget, hid]

theorem serviceRefund_idem {s : Store} {now : Nat} {r : Refund} {t : Transaction}
    (hget : getTransaction s r.authorizationId = Except.ok t)
    (hid : t.isRequestIDIdempotent patRefund r.requestId = true) :
    serviceRefund s now r = (Except.ok t, s) := by
  simp [serviceRefund, hget, hid]

theorem serviceVoid_idem {s : Store} {now : Nat} {v : Void} {t : Transaction}
    (hget : getTransaction s v.authorizationId = Except.ok t)
    (hid : t.isRequestIDIdempotent patVoid v.requestId = true) :
    serviceVoid s now v = (Except.ok t, s) := by
  simp [serviceVoid, hget, hid]

theorem serviceCapture_invalid {s : Store} {now : Nat} {c : Capture} {t : Transaction}
    {reason : String}
    (hget : getTransaction s c.authorizationId = Except.ok t)
    (hid : t.isRequestIDIdempotent patCapture c.requestId = false)
    (hval : t.validateCapture c.amount = some reason) :
    serviceCapture s now c = (Except.error (ServiceError.unprocessable reason), s) := by
  simp [serviceCapture, hget, hid, hval]

theorem serviceRefund_invalid {s : Store} {now : Nat} {r : Refund} {t : Transaction}
    {reason : String}
    (hget : getTransaction s r.authorizationId = Except.ok t)
    (hid : t.isRequestIDIdempotent patRefund r.requestId = false)
    (hval : t.validateRefund r.amount = some reason) :
    serviceRefund s now r = (Except.error (ServiceError.unprocessable reason), s) := by
  simp [serviceRefund, hget, hid, hval]

theorem serviceVoid_invalid {s : Store} {now : Nat} {v : Void} {t : Transaction}
    {reason : String}
    (hget : getTransaction s v.authorizationId = Except.ok t)
    (hid : t.isRequestIDIdempotent patVoid v.requestId = false)
    (hval : t.validateVoid = some reason) :
    serviceVoid s now v = (Except.error (ServiceError.unprocessable reason), s) := by
  simp [serviceVoid, hget, hid, hval]

theorem getTransaction_none {s : Store} {aid : UUID}
    (h : s.find? (fun r => r.authorizationId == aid) = none) :
    getTransaction s aid = Except.error ServiceError.notFound := by
  simp [getTransaction, h]

/-! ## Claims -/

/-- C1, claim as frozen is FALSE on the code: with derived totals
recomputed from the log, a capture amount whose exact sum with the
captured total overflows 2^64 is accepted because Go uint64 addition
wraps: captured = 2^64 - 1, amount = 1 wraps to 0 ≤ authorized = 5,
yet the exact sum 2^64 exceeds the authorized total 5. -/
theorem C1_counterexample :
    (Transaction.amounts c1cex).validateCapture ⟨1, "GBP", 2⟩ = none ∧
    (Transaction.amounts c1cex).capturedAmount.minorUnits + 1 >
      (Transaction.amounts c1cex).authorizedAmount.minorUnits := by
  constructor
  · rfl
  · decide

/-- C1 (amended): for a transaction with recomputed totals that is
neither voided nor refunded, and a capture amount in the transaction's
currency representable as uint64, ValidateCapture returns ok if and
only if (capturedAmount.minorUnits + amount.minorUnits) mod 2^64 is at
most authorizedAmount.minorUnits; under the additional hypothesis that
the exact sum does not overflow uint64, ok holds iff the exact sum is
at most the authorized total (the claim's statement). -/
theorem C1_capture_bound (t0 : Transaction) (a : Amount)
    (hv : (Transaction.amounts t0).voided = false)
    (hr : (Transaction.amounts t0).refunded = false)
    (hc : (Transaction.amounts t0).amount.currency = a.currency) :
    ((Transaction.amounts t0).validateCapture a = none ↔
      ((Transaction.amounts t0).capturedAmount.minorUnits + a.minorUnits) % U64 ≤
        (Transaction.amounts t0).authorizedAmount.minorUnits) ∧
    ((Transaction.amounts t0).capturedAmount.minorUnits + a.minorUnits < U64 →
      ((Transaction.amounts t0).validateCapture a = none ↔
        (Transaction.amounts t0).capturedAmount.minorUnits + a.minorUnits ≤
          (Transaction.amounts t0).authorizedAmount.minorUnits)) := by
  have hmain : (Transaction.amounts t0).validateCapture a = none ↔
      ((Transaction.amounts t0).capturedAmount.minorUnits + a.minorUnits) % U64 ≤
        (Transaction.amounts t0).authorizedAmount.minorUnits := by
    simp [Transaction.validateCapture, hv, hr, hc, u64add, Nat.not_lt]
  refine ⟨hmain, fun hlt => ?_⟩
  rw [hmain, Nat.mod_eq_of_lt hlt]

/-- Witness for C1_capture_bound at a freshly authorized transaction
(authorized 10000) and capture amount 4000 in the same currency. -/
theorem C1_capture_bound_witness :
    ((Transaction.amounts c1wit).validateCapture ⟨4000, "GBP", 2⟩ = none ↔
      ((Transaction.amounts c1wit).capturedAmount.minorUnits + 4000) % U64 ≤
        (Transaction.amounts c1wit).authorizedAmount.minorUnits) :=
  (C1_capture_bound c1wit ⟨4000, "GBP", 2⟩ (by decide) (by decide) (by decide)).1

/-- C4, claim as frozen is FALSE on the code: captured totals are
accumulated with wrapping uint64 addition, so two successful captures of
2^64 - 1 and 1 recompute to a captured total of 0, not to their exact
sum 2^64. -/
theorem C4_counterexample :
    (Transaction.amounts c4cex).capturedAmount.minorUnits ≠
      sumSuccessfulCaptures c4cex.paymentActionSummary ∧
    (Transaction.amounts c4cex).capturedAmount.minorUnits = 0 ∧
    sumSuccessfulCaptures c4cex.paymentActionSummary = U64 := by
  refine ⟨?_, ?_, ?_⟩ <;> decide

/-- C4 (amended): recomputing totals from the log yields the amount of
the last successful authorization action, the sum of successful capture
amounts reduced modulo 2^64, and the sum of successful refund amounts
reduced modulo 2^64 (equal to the exact sums whenever they fit in
uint64), each carrying the transaction's original currency and
exponent; failed actions contribute nothing. -/
theorem C4_amounts_recompute (t : Transaction) :
    (Transaction.amounts t).authorizedAmount =
      ⟨lastSuccessfulAuthAmount t.paymentActionSummary 0,
        t.amount.currency, t.amount.exponent⟩ ∧
    (Transaction.amounts t).capturedAmount =
      ⟨sumSuccessfulCaptures t.paymentActionSummary % U64,
        t.amount.currency, t.amount.exponent⟩ ∧
    (Transaction.amounts t).refundedAmount =
      ⟨sumSuccessfulRefunds t.paymentActionSummary % U64,
        t.amount.currency, t.amount.exponent⟩ := by
  have h := amountsLoop_eq t.paymentActionSummary 0 0 0 (by decide) (by decide)
  simp only [Transaction.amounts, h]
  simp

/-- C9: Amounts rewrites only the three derived amount fields; the
identifiers, payment source, original amount and the action log are
unchanged.  The validators and status predicates take the transaction
by value and return only a verdict (value receivers in Go, plain
functions out of Transaction here), so they modify no field. -/
theorem C9_amounts_frame (t : Transaction) :
    (Transaction.amounts t).id = t.id ∧
    (Transaction.amounts t).requestId = t.requestId ∧
    (Transaction.amounts t).authorizationId = t.authorizationId ∧
    (Transaction.amounts t).paymentSource = t.paymentSource ∧
    (Transaction.amounts t).amount = t.amount ∧
    (Transaction.amounts t).paymentActionSummary = t.paymentActionSummary :=
  ⟨rfl, rfl, rfl, rfl, rfl, rfl⟩

theorem amountsLoop_noSuccess {log : List PaymentAction}
    (h : ∀ pa ∈ log, pa.status ≠ pasSuccess) :
    ∀ acc, amountsLoop log acc = acc := by
  induction log with
  | nil => intro acc; rfl
  | cons pa rest ih =>
    intro acc
    obtain ⟨a, c, r⟩ := acc
    have hpa : pa.status ≠ pasSuccess := h pa (by simp)
    have h1 : pa.authorizationSuccess = false := by
      simp [PaymentAction.authorizationSuccess, hpa]
    have h2 : pa.captureSuccess = false := by
      simp [PaymentAction.captureSuccess, hpa]
    have h3 : pa.refundSuccess = false := by
      simp [PaymentAction.refundSuccess, hpa]
    simp only [amountsLoop, h1, h2, h3, Bool.false_eq_true, if_false]
    exact ih (fun q hq => h q (by simp [hq])) _

theorem preds_noSuccess {t : Transaction}
    (h : ∀ pa ∈ t.paymentActionSummary, pa.status ≠ pasSuccess) :
    t.voided = false ∧ t.refunded = false ∧ t.captured = false ∧
    t.authorizationDate = none := by
  refine ⟨?_, ?_, ?_, ?_⟩
  · rw [Transaction.voided, List.any_eq_false]
    intro pa hpa
    simp [PaymentAction.voidSuccess, h pa hpa]
  · rw [Transaction.refunded, List.any_eq_false]
    intro pa hpa
    simp [PaymentAction.refundSuccess, h pa hpa]
  · rw [Transaction.captured, List.any_eq_false]
    intro pa hpa
    simp [PaymentAction.captureSuccess, h pa hpa]
  · have hf : t.paymentActionSummary.find? (fun pa => pa.authorizationSuccess) = none := by
      rw [List.find?_eq_none]
      intro pa hpa
      simp [PaymentAction.authorizationSuccess, h pa hpa]
    simp [Transaction.authorizationDate, hf]

theorem amounts_noSuccess {t : Transaction}
    (h : ∀ pa ∈ t.paymentActionSummary, pa.status ≠ pasSuccess) :
    Transaction.amounts t = { t with
      authorizedAmount := ⟨0, t.amount.currency, t.amount.exponent⟩
      capturedAmount := ⟨0, t.amount.currency, t.amount.exponent⟩
      refundedAmount := ⟨0, t.amount.currency, t.amount.exponent⟩ } := by
  simp [Transaction.amounts, amountsLoop_noSuccess h]

/-- C10, claim as frozen is FALSE on the code: a transaction whose log
has no successful authorization can still contain a successful capture
(a zero-amount capture passes ValidateCapture even with nothing
authorized), and then ValidateVoid rejects instead of returning ok. -/
theorem C10_counterexample :
    c10cex.paymentActionSummary.all (fun pa => !pa.authorizationSuccess) = true ∧
    (Transaction.amounts c10cex).validateCapture ⟨0, "GBP", 2⟩ = none ∧
    (Transaction.amounts c10cex).validateVoid = some "transaction is already captured" := by
  refine ⟨?_, ?_, ?_⟩ <;> decide

/-- C10 (amended): for a transaction whose log contains no successful
action of any type (for example, only a failed authorization),
recomputed totals are all zero in the original currency and exponent,
AuthorizationDate is absent, ValidateCapture and ValidateRefund reject
every positive uint64 amount, and ValidateVoid returns ok. -/
theorem C10_all_failed (t : Transaction)
    (h : ∀ pa ∈ t.paymentActionSummary, pa.status ≠ pasSuccess) :
    (Transaction.amounts t).authorizedAmount = ⟨0, t.amount.currency, t.amount.exponent⟩ ∧
    (Transaction.amounts t).capturedAmount = ⟨0, t.amount.currency, t.amount.exponent⟩ ∧
    (Transaction.amounts t).refundedAmount = ⟨0, t.amount.currency, t.amount.exponent⟩ ∧
    t.authorizationDate = none ∧
    (∀ a : Amount, 0 < a.minorUnits → a.minorUnits < U64 →
      (Transaction.amounts t).validateCapture a ≠ none ∧
      (Transaction.amounts t).validateRefund a ≠ none) ∧
    (Transaction.amounts t).validateVoid = none := by
  obtain ⟨hv, hr, hcap, hdate⟩ := preds_noSuccess h
  have hamt := amounts_noSuccess h
  rw [hamt]
  have hv2 : Transaction.voided { t with
      authorizedAmount := ⟨0, t.amount.currency, t.amount.exponent⟩
      capturedAmount := ⟨0, t.amount.currency, t.amount.exponent⟩
      refundedAmount := ⟨0, t.amount.currency, t.amount.exponent⟩ } = false := hv
  have hr2 : Transaction.refunded { t with
      authorizedAmount := ⟨0, t.amount.currency, t.amount.exponent⟩
      capturedAmount := ⟨0, t.amount.currency, t.amount.exponent⟩
      refundedAmount := ⟨0, t.amount.currency, t.amount.exponent⟩ } = false := hr
  have hc2 : Transaction.captured { t with
      authorizedAmount := ⟨0, t.amount.currency, t.amount.exponent⟩
      capturedAmount := ⟨0, t.amount.currency, t.amount.exponent⟩
      refundedAmount := ⟨0, t.amount.currency, t.amount.exponent⟩ } = false := hcap
  refine ⟨rfl, rfl, rfl, hdate, ?_, ?_⟩
  · intro a ha0 haU
    constructor
    · simp only [Transaction.validateCapture, hv2, hr2, Bool.false_eq_true, if_false]
      by_cases hcur : t.amount.currency = a.currency
      · simp [hcur, u64add, Nat.mod_eq_of_lt haU, ha0]
      · simp [hcur]
    · simp only [Transaction.validateRefund, hv2, Bool.false_eq_true, if_false]
      by_cases hcur : t.amount.currency = a.currency
      · simp [hcur, u64add, Nat.mod_eq_of_lt haU, ha0]
      · simp [hcur]
  · simp [Transaction.validateVoid, hv2, hc2]

/-- Witness for C10_all_failed at a transaction whose only action is a
failed authorization. -/
theorem C10_all_failed_witness :
    (Transaction.amounts c10wit).authorizedAmount = ⟨0, "GBP", 2⟩ ∧
    (Transaction.amounts c10wit).validateVoid = none ∧
    (Transaction.amounts c10wit).validateCapture ⟨500, "GBP", 2⟩ ≠ none := by
  have h := C10_all_failed c10wit (by decide)
  exact ⟨h.1, h.2.2.2.2.2, (h.2.2.2.2.1 ⟨500, "GBP", 2⟩ (by decide) (by decide)).1⟩

/-- C2: once a successful void action exists in the log, ValidateCapture,
ValidateRefund and ValidateVoid all reject (with the already-voided
reason), and the Capture, Refund and Void service operations fail
Unprocessable with the store unchanged — except an idempotent replay of
an existing (type, requestID) pair, which returns the aggregate
unchanged.  The hypothesis quantifies over every log containing a
successful void, so no state of the log re-enables the operations. -/
theorem C2_void_terminal (t : Transaction) (ht : t.voided = true) :
    (∀ a, t.validateCapture a = some "transaction is already voided") ∧
    (∀ a, t.validateRefund a = some "transaction is already voided") ∧
    t.validateVoid = some "transaction is already voided" ∧
    (∀ (s : Store) (now : Nat) (c : Capture),
      getTransaction s c.authorizationId = Except.ok t →
      (t.isRequestIDIdempotent patCapture c.requestId = false →
        serviceCapture s now c =
          (Except.error (ServiceError.unprocessable "transaction is already voided"), s)) ∧
      (t.isRequestIDIdempotent patCapture c.requestId = true →
        serviceCapture s now c = (Except.ok t, s))) ∧
    (∀ (s : Store) (now : Nat) (r : Refund),
      getTransaction s r.authorizationId = Except.ok t →
      (t.isRequestIDIdempotent patRefund r.requestId = false →
        serviceRefund s now r =
          (Except.error (ServiceError.unprocessable "transaction is already voided"), s)) ∧
      (t.isRequestIDIdempotent patRefund r.requestId = true →
        serviceRefund s now r = (Except.ok t, s))) ∧
    (∀ (s : Store) (now : Nat) (v : Void),
      getTransaction s v.authorizationId = Except.ok t →
      (t.isRequestIDIdempotent patVoid v.requestId = false →
        serviceVoid s now v =
          (Except.error (ServiceError.unprocessable "transaction is already voided"), s)) ∧
      (t.isRequestIDIdempotent patVoid v.requestId = true →
        serviceVoid s now v = (Except.ok t, s))) := by
  have hvc : ∀ a, t.validateCapture a = some "transaction is already voided" := fun a => by
    simp [Transaction.validateCapture, ht]
  have hvr : ∀ a, t.validateRefund a = some "transaction is already voided" := fun a => by
    simp [Transaction.validateRefund, ht]
  have hvv : t.validateVoid = some "transaction is already voided" := by
    simp [Transaction.validateVoid, ht]
  refine ⟨hvc, hvr, hvv, ?_, ?_, ?_⟩
  · intro s now c hget
    exact ⟨fun hid => serviceCapture_invalid hget hid (hvc _),
      fun hid => serviceCapture_idem hget hid⟩
  · intro s now r hget
    exact ⟨fun hid => serviceRefund_invalid hget hid (hvr _),
      fun hid => serviceRefund_idem hget hid⟩
  · intro s now v hget
    exact ⟨fun hid => serviceVoid_invalid hget hid hvv,
      fun hid => serviceVoid_idem hget hid⟩

/-- Witness for C2_void_terminal on a stored authorized-then-voided
transaction: a fresh capture and a fresh void both fail Unprocessable. -/
theorem C2_void_terminal_witness :
    Transaction.voided c2t = true ∧
    serviceCapture c2store 2 ⟨12, 100, ⟨5, "GBP", 2⟩⟩ =
      (Except.error (ServiceError.unprocessable "transaction is already voided"), c2store) ∧
    serviceVoid c2store 2 ⟨13, 100⟩ =
      (Except.error (ServiceError.unprocessable "transaction is already voided"), c2store) := by
  have h := C2_void_terminal c2t (by decide)
  refine ⟨by decide, ?_, ?_⟩
  · exact (h.2.2.2.1 c2store 2 ⟨12, 100, ⟨5, "GBP", 2⟩⟩ rfl).1 (by decide)
  · exact (h.2.2.2.2.2 c2store 2 ⟨13, 100⟩ rfl).1 (by decide)

theorem serviceAuthorize_replay_noop {s : Store} {now f1 f2 : Nat} {auth : Authorization}
    (hrow : (s.find? (fun r => r.requestId == auth.requestId)).isSome = true)
    (hact : (findStoredAction s auth.requestId).isSome = true) :
    (serviceAuthorize s now f1 f2 auth).2 = s := by
  obtain ⟨r, hr⟩ := Option.isSome_iff_exists.mp hrow
  obtain ⟨a, ha⟩ := Option.isSome_iff_exists.mp hact
  cases hl : luhn.Validate auth.paymentSource.pan with
  | some msg => simp [serviceAuthorize, hl]
  | none => simp [serviceAuthorize, hl, createTransaction, hr, ha]

/-- C3 (amended): Capture, Refund and Void are idempotent with respect
to the (actionType, requestID) pair — a replay returns the current
aggregate state (the stored transaction with recomputed totals) with
the store unchanged, regardless of the logged action's status.  An
Authorize replay with an already-used requestID appends nothing and
leaves the store unchanged, but what it returns is rebuilt from the
request and need not equal the current aggregate state. -/
theorem C3_idempotent_replay :
    (∀ (s : Store) (now : Nat) (c : Capture) (t : Transaction),
      getTransaction s c.authorizationId = Except.ok t →
      t.isRequestIDIdempotent patCapture c.requestId = true →
      serviceCapture s now c = (Except.ok t, s)) ∧
    (∀ (s : Store) (now : Nat) (r : Refund) (t : Transaction),
      getTransaction s r.authorizationId = Except.ok t →
      t.isRequestIDIdempotent patRefund r.requestId = true →
      serviceRefund s now r = (Except.ok t, s)) ∧
    (∀ (s : Store) (now : Nat) (v : Void) (t : Transaction),
      getTransaction s v.authorizationId = Except.ok t →
      t.isRequestIDIdempotent patVoid v.requestId = true →
      serviceVoid s now v = (Except.ok t, s)) ∧
    (∀ (s : Store) (now f1 f2 : Nat) (auth : Authorization),
      (s.find? (fun r => r.requestId == auth.requestId)).isSome = true →
      (findStoredAction s auth.requestId).isSome = true →
      (serviceAuthorize s now f1 f2 auth).2 = s) := by
  refine ⟨?_, ?_, ?_, ?_⟩
  · intro s now c t hget hid
    exact serviceCapture_idem hget hid
  · intro s now r t hget hid
    exact serviceRefund_idem hget hid
  · intro s now v t hget hid
    exact serviceVoid_idem hget hid
  · intro s now f1 f2 auth hrow hact
    exact serviceAuthorize_replay_noop hrow hact

/-- Witness for C3_idempotent_replay: replaying capture requestID 11
(already logged) with an arbitrary amount returns the stored aggregate
unchanged, and replaying the original authorize leaves the store
unchanged. -/
theorem C3_idempotent_replay_witness :
    serviceCapture c3store 9 ⟨11, 100, ⟨9999, "GBP", 2⟩⟩ = (Except.ok c3current, c3store) ∧
    (serviceAuthorize c3store 9 2 200 c3auth).2 = c3store := by
  have h := C3_idempotent_replay
  exact ⟨h.1 c3store 9 ⟨11, 100, ⟨9999, "GBP", 2⟩⟩ c3current rfl (by decide),
    h.2.2.2 c3store 9 2 200 c3auth (by decide) (by decide)⟩

/-- C3, claim as frozen is FALSE for Authorize: replaying the authorize
request of a transaction that has since been captured appends no action
(the store is unchanged) but does NOT return the current aggregate
state: the returned aggregate is rebuilt from the request alone, with a
captured total of 0, while the current aggregate has captured 5000. -/
theorem C3_counterexample :
    (serviceAuthorize c3store 5 2 200 c3auth).1 = Except.ok c3returned ∧
    (serviceAuthorize c3store 5 2 200 c3auth).2 = c3store ∧
    getTransaction c3store 100 = Except.ok c3current ∧
    c3returned.capturedAmount.minorUnits = 0 ∧
    c3current.capturedAmount.minorUnits = 5000 ∧
    c3returned ≠ c3current := by
  refine ⟨rfl, rfl, rfl, rfl, rfl, by decide⟩

/-- C7: a Capture, Refund or Void on an existing transaction that fails
aggregate validation returns an error classified Unprocessable carrying
the validator's human-readable reason, and the store is unchanged (no
payment action is appended); when no transaction exists for the
authorizationID the error is NotFound, a classification distinct from
Unprocessable. -/
theorem C7_validation_unprocessable :
    (∀ (s : Store) (now : Nat) (c : Capture) (t : Transaction) (reason : String),
      getTransaction s c.authorizationId = Except.ok t →
      t.isRequestIDIdempotent patCapture c.requestId = false →
      t.validateCapture c.amount = some reason →
      serviceCapture s now c = (Except.error (ServiceError.unprocessable reason), s)) ∧
    (∀ (s : Store) (now : Nat) (r : Refund) (t : Transaction) (reason : String),
      getTransaction s r.authorizationId = Except.ok t →
      t.isRequestIDIdempotent patRefund r.requestId = false →
      t.validateRefund r.amount = some reason →
      serviceRefund s now r = (Except.error (ServiceError.unprocessable reason), s)) ∧
    (∀ (s : Store) (now : Nat) (v : Void) (t : Transaction) (reason : String),
      getTransaction s v.authorizationId = Except.ok t →
      t.isRequestIDIdempotent patVoid v.requestId = false →
      t.validateVoid = some reason →
      serviceVoid s now v = (Except.error (ServiceError.unprocessable reason), s)) ∧
    (∀ (s : Store) (now : Nat) (c : Capture),
      s.find? (fun row => row.authorizationId == c.authorizationId) = none →
      serviceCapture s now c = (Except.error ServiceError.notFound, s)) ∧
    (∀ reason, (ServiceError.notFound : ServiceError) ≠ ServiceError.unprocessable reason) := by
  refine ⟨?_, ?_, ?_, ?_, ?_⟩
  · intro s now c t reason hget hid hval
    exact serviceCapture_invalid hget hid hval
  · intro s now r t reason hget hid hval
    exact serviceRefund_invalid hget hid hval
  · intro s now v t reason hget hid hval
    exact serviceVoid_invalid hget hid hval
  · intro s now c hnone
    simp [serviceCapture, getTransaction_none hnone]
  · intro reason h
    exact ServiceError.noConfusion h

/-- Witness for C7_validation_unprocessable: with 10000 authorized and
7000 already captured, capturing 4000 more fails Unprocessable with the
over-authorization reason and the store is unchanged; on an empty store
the same request is NotFound. -/
theorem C7_validation_unprocessable_witness :
    serviceCapture c7store 3 ⟨13, 100, ⟨4000, "GBP", 2⟩⟩ =
      (Except.error (ServiceError.unprocessable "amount to be captured > authorized amount"),
        c7store) ∧
    serviceCapture [] 3 ⟨13, 100, ⟨4000, "GBP", 2⟩⟩ =
      (Except.error ServiceError.notFound, ([] : Store)) := by
  have h := C7_validation_unprocessable
  refine ⟨?_, ?_⟩
  · exact h.1 c7store 3 ⟨13, 100, ⟨4000, "GBP", 2⟩⟩ c7t
      "amount to be captured > authorized amount" rfl (by decide) (by decide)
  · exact h.2.2.2.1 [] 3 ⟨13, 100, ⟨4000, "GBP", 2⟩⟩ rfl

/-- C8: the idempotent-replay check looks only at (type, requestID) of
logged actions — never amount or status — so on a transaction whose log
contains a capture (or refund) action with requestID rid, even a failed
one, replays with ANY two amounts both return the fetched aggregate
with no error and an unchanged store: the result does not depend on the
replayed amount. -/
theorem C8_replay_ignores_amount (s : Store) (now : Nat) (aid rid : UUID) (t : Transaction)
    (hget : getTransaction s aid = Except.ok t) :
    (t.isRequestIDIdempotent patCapture rid = true →
      ∀ a1 a2 : Amount,
        serviceCapture s now ⟨rid, aid, a1⟩ = (Except.ok t, s) ∧
        serviceCapture s now ⟨rid, aid, a1⟩ = serviceCapture s now ⟨rid, aid, a2⟩) ∧
    (t.isRequestIDIdempotent patRefund rid = true →
      ∀ a1 a2 : Amount,
        serviceRefund s now ⟨rid, aid, a1⟩ = (Except.ok t, s) ∧
        serviceRefund s now ⟨rid, aid, a1⟩ = serviceRefund s now ⟨rid, aid, a2⟩) := by
  constructor
  · intro hid a1 a2
    have h1 := @serviceCapture_idem s now ⟨rid, aid, a1⟩ t hget hid
    have h2 := @serviceCapture_idem s now ⟨rid, aid, a2⟩ t hget hid
    exact ⟨h1, h1.trans h2.symm⟩
  · intro hid a1 a2
    have h1 := @serviceRefund_idem s now ⟨rid, aid, a1⟩ t hget hid
    have h2 := @serviceRefund_idem s now ⟨rid, aid, a2⟩ t hget hid
    exact ⟨h1, h1.trans h2.symm⟩

/-- Witness for C8_replay_ignores_amount on a transaction whose log
holds a FAILED capture with requestID 7 and a FAILED refund with
requestID 8: replays with amounts 1 and 999999 coincide. -/
theorem C8_replay_ignores_amount_witness :
    serviceCapture c8store 4 ⟨7, 100, ⟨1, "GBP", 2⟩⟩ = (Except.ok c8t, c8store) ∧
    serviceCapture c8store 4 ⟨7, 100, ⟨1, "GBP", 2⟩⟩ =
      serviceCapture c8store 4 ⟨7, 100, ⟨999999, "GBP", 2⟩⟩ ∧
    serviceRefund c8store 4 ⟨8, 100, ⟨1, "GBP", 2⟩⟩ = (Except.ok c8t, c8store) := by
  have h := C8_replay_ignores_amount c8store 4 100 7 c8t rfl
  have h8 := C8_replay_ignores_amount c8store 4 100 8 c8t rfl
  have hc := h.1 (by decide) ⟨1, "GBP", 2⟩ ⟨999999, "GBP", 2⟩
  have hr := h8.2 (by decide) ⟨1, "GBP", 2⟩ ⟨2, "GBP", 2⟩
  exact ⟨hc.1, hc.2, hr.1⟩

/-! ## Luhn lemmas -/

theorem luhnGo_congr : ∀ f1 f2 n i, n ≤ f1 → n ≤ f2 → luhnGo f1 n i = luhnGo f2 n i := by
  intro f1
  induction f1 with
  | zero =>
    intro f2 n i h1 h2
    have hn : n = 0 := by omega
    subst hn
    cases f2 <;> simp [luhnGo]
  | succ f ih =>
    intro f2 n i h1 h2
    by_cases hn : n = 0
    · subst hn
      cases f2 <;> simp [luhnGo]
    · obtain ⟨f2p, rfl⟩ : ∃ k, f2 = k + 1 := by
        cases f2
        · omega
        · exact ⟨_, rfl⟩
      simp only [luhnGo, if_neg hn]
      have hlt : n / 10 < n := Nat.div_lt_self (Nat.pos_of_ne_zero hn) (by omega)
      rw [ih f2p (n / 10) (i + 1) (by omega) (by omega)]

theorem luhnAcc_unfold (n i : Nat) :
    luhnAcc n i = if n = 0 then 0
      else (if i % 2 = 0 then luhnDouble (n % 10) else n % 10) + luhnAcc (n / 10) (i + 1) := by
  by_cases hn : n = 0
  · subst hn
    simp [luhnAcc, luhnGo]
  · rw [if_neg hn]
    obtain ⟨m, rfl⟩ : ∃ m, n = m + 1 := ⟨n - 1, by omega⟩
    show luhnGo (m + 1) (m + 1) i = _
    simp only [luhnGo, if_neg hn]
    congr 1
    have hlt : (m + 1) / 10 < m + 1 := Nat.div_lt_self (by omega) (by omega)
    exact luhnGo_congr m ((m + 1) / 10) ((m + 1) / 10) (i + 1) (by omega) (Nat.le_refl _)

theorem specLuhnList_eq (ds : List Nat) :
    ∀ i, (∀ d ∈ ds, d < 10) → specLuhnList i ds = luhnAcc (natOfRevDigits ds) i := by
  induction ds with
  | nil =>
    intro i h
    simp [specLuhnList, natOfRevDigits, luhnAcc, luhnGo]
  | cons d ds ih =>
    intro i h
    have hd : d < 10 := h d (by simp)
    have hrest : ∀ x ∈ ds, x < 10 := fun x hx => h x (by simp [hx])
    rw [luhnAcc_unfold]
    by_cases h0 : natOfRevDigits (d :: ds) = 0
    · have h0e : d + 10 * natOfRevDigits ds = 0 := by
        simpa [natOfRevDigits] using h0
      have hd0 : d = 0 := by omega
      have hm0 : natOfRevDigits ds = 0 := by omega
      rw [if_pos h0]
      simp only [specLuhnList, hd0]
      rw [ih (i + 1) hrest, hm0]
      simp [luhnDouble, luhnAcc, luhnGo]
    · rw [if_neg h0]
      have hmod : natOfRevDigits (d :: ds) % 10 = d := by
        show (d + 10 * natOfRevDigits ds) % 10 = d
        omega
      have hdiv : natOfRevDigits (d :: ds) / 10 = natOfRevDigits ds := by
        show (d + 10 * natOfRevDigits ds) / 10 = natOfRevDigits ds
        omega
      rw [hmod, hdiv, ← ih (i + 1) hrest]
      simp only [specLuhnList]
      congr 1
      by_cases hi : i % 2 = 0
      · simp only [hi, if_pos rfl, luhnDouble]
        split_ifs <;> omega
      · simp [hi]

theorem natOfRevDigits_append (ds : List Nat) (d : Nat) :
    natOfRevDigits (ds ++ [d]) = natOfRevDigits ds + d * 10 ^ ds.length := by
  induction ds with
  | nil => simp [natOfRevDigits]
  | cons x ds ih =>
    show x + 10 * natOfRevDigits (ds ++ [d]) =
      x + 10 * natOfRevDigits ds + d * 10 ^ (ds.length + 1)
    rw [ih]
    ring

theorem digits_foldl_eq (cs : List Char) :
    ∀ a, cs.foldl (fun x c => x * 10 + charDigit c) a =
      a * 10 ^ cs.length + natOfRevDigits (cs.reverse.map charDigit) := by
  induction cs with
  | nil =>
    intro a
    simp [natOfRevDigits]
  | cons c cs ih =>
    intro a
    simp only [List.foldl_cons, List.reverse_cons, List.map_append, List.map_cons,
      List.map_nil, List.length_cons]
    rw [ih, natOfRevDigits_append]
    simp only [List.length_map, List.length_reverse]
    ring

theorem digitsToNat_eq (cs : List Char) :
    digitsToNat cs = natOfRevDigits (cs.reverse.map charDigit) := by
  have h := digits_foldl_eq cs 0
  simpa [digitsToNat] using h

theorem charDigit_lt {c : Char} (h : isDigitChar c = true) : charDigit c < 10 := by
  have hb : 48 ≤ c.toNat ∧ c.toNat ≤ 57 := by simpa [isDigitChar] using h
  unfold charDigit
  omega

theorem luhnValidate_nonNumeric_iff (s : String) :
    atoi s = none ↔ luhn.Validate s = some "pan contains non numeric or spaces" := by
  constructor
  · intro h
    simp [luhn.Validate, h]
  · intro h
    cases ha : atoi s with
    | none => rfl
    | some p =>
      simp only [luhn.Validate, ha] at h
      split_ifs at h <;> exact absurd h (by decide)

theorem luhnValidate_nonpositive {s : String} {p : Int}
    (ha : atoi s = some p) (hp : p ≤ 0) : luhn.Validate s = none := by
  have hngt : ¬p > 0 := by omega
  simp [luhn.Validate, ha, hngt]

theorem atoi_digits {s : String} {c : Char} {cs : List Char} (hs : s.data = c :: cs)
    (hall : s.data.all isDigitChar = true) (hlt : digitsToNat s.data < maxInt64) :
    atoi s = some ((digitsToNat s.data : Nat) : Int) := by
  have hcd : isDigitChar c = true := by
    rw [hs] at hall
    exact List.all_eq_true.mp hall c (by simp)
  have hcn : 48 ≤ c.toNat ∧ c.toNat ≤ 57 := by simpa [isDigitChar] using hcd
  have hnotsign : ¬(c = '-' ∨ c = '+') := by
    rintro (rfl | rfl)
    · exact absurd hcn (by decide)
    · exact absurd hcn (by decide)
  have hallc : (c :: cs).all isDigitChar = true := by rw [← hs]; exact hall
  simp only [atoi, hs]
  rw [if_neg hnotsign]
  rw [if_pos ⟨List.cons_ne_nil c cs, hallc⟩]
  rw [if_neg (fun hc => hnotsign (Or.inl hc))]
  rw [if_pos (by rw [← hs]; exact hlt)]

theorem specLuhnSum_eq {s : String} (hall : s.data.all isDigitChar = true) :
    specLuhnSum s = luhnAcc (digitsToNat s.data) 1 := by
  rw [specLuhnSum, digitsToNat_eq]
  apply specLuhnList_eq
  intro d hd
  obtain ⟨ch, hch, rfl⟩ := List.mem_map.mp hd
  exact charDigit_lt (List.all_eq_true.mp hall ch (List.mem_reverse.mp hch))

theorem luhnValidate_digits (s : String) (hne : s.data ≠ [])
    (hall : s.data.all isDigitChar = true) (hlt : digitsToNat s.data < maxInt64) :
    (luhn.Validate s = none ↔ specLuhnSum s % 10 = 0) := by
  obtain ⟨c, cs, hs⟩ : ∃ c cs, s.data = c :: cs := by
    cases h : s.data with
    | nil => exact absurd h hne
    | cons c cs => exact ⟨c, cs, rfl⟩
  have ha := atoi_digits hs hall hlt
  have hspec := specLuhnSum_eq hall
  simp only [luhn.Validate, ha]
  have hl : (if ((digitsToNat s.data : Nat) : Int) > 0
      then luhnAcc ((digitsToNat s.data : Nat) : Int).toNat 1 else 0) =
      luhnAcc (digitsToNat s.data) 1 := by
    by_cases hn : digitsToNat s.data = 0
    · rw [hn]
      simp [luhnAcc, luhnGo]
    · rw [if_pos (by exact_mod_cast Nat.pos_of_ne_zero hn)]
      simp
  rw [hl, hspec]
  by_cases hmod : luhnAcc (digitsToNat s.data) 1 % 10 = 0
  · simp [hmod]
  · simp [hmod]

theorem atoi_none_of_space {s : String} (h : ' ' ∈ s.data) : atoi s = none := by
  cases hs : s.data with
  | nil => simp [atoi, hs]
  | cons c cs =>
    rw [hs] at h
    simp only [atoi, hs]
    have hnotall : ∀ ds : List Char, ' ' ∈ ds → ¬(ds ≠ [] ∧ ds.all isDigitChar) := by
      rintro ds hmem ⟨hne2, hall⟩
      exact absurd (List.all_eq_true.mp hall ' ' hmem) (by decide)
    by_cases hsign : c = '-' ∨ c = '+'
    · rw [if_pos hsign]
      have hcs : ' ' ∈ cs := by
        rcases List.mem_cons.mp h with hc | hc
        · exfalso
          rcases hsign with rfl | rfl <;> exact absurd hc (by decide)
        · exact hc
      rw [if_neg (hnotall cs hcs)]
    · rw [if_neg hsign]
      rw [if_neg (hnotall (c :: cs) h)]

/-- C5, claim as frozen is FALSE on the code: the validator first parses
the whole string as a signed 64-bit integer (strconv.Atoi).  The
all-digit, Luhn-valid string of twenty nines overflows int64 and is
rejected with the non-numeric error instead of succeeding; conversely
the string starting with a minus sign, which contains a non-digit
character, is accepted because the digit loop never runs on a
non-positive value. -/
theorem C5_counterexample :
    c5str.data.all isDigitChar = true ∧
    specLuhnSum c5str % 10 = 0 ∧
    luhn.Validate c5str = some "pan contains non numeric or spaces" ∧
    ("-4" : String).data.all isDigitChar = false ∧
    luhn.Validate "-4" = none := by
  refine ⟨?_, ?_, ?_, ?_, ?_⟩ <;> decide

/-- C5 (amended): the validator fails with the non-numeric error exactly
when Atoi fails (a non-digit character beyond one optional leading sign,
an empty string, or a value outside int64); any string parsing to a
non-positive value is accepted outright; and on nonempty all-digit
strings whose value is below 2^63 it succeeds if and only if the
digit-wise Luhn checksum described by the claim is divisible by 10. -/
theorem C5_luhn_validator :
    (∀ s : String, atoi s = none ↔
      luhn.Validate s = some "pan contains non numeric or spaces") ∧
    (∀ (s : String) (p : Int), atoi s = some p → p ≤ 0 → luhn.Validate s = none) ∧
    (∀ s : String, s.data ≠ [] → s.data.all isDigitChar = true →
      digitsToNat s.data < maxInt64 →
      (luhn.Validate s = none ↔ specLuhnSum s % 10 = 0)) :=
  ⟨luhnValidate_nonNumeric_iff,
   fun _ _ ha hp => luhnValidate_nonpositive ha hp,
   luhnValidate_digits⟩

/-- Witness for C5_luhn_validator on the claim's three examples: the
known-valid card number is accepted, its checksum-breaking variant is
not accepted, and the alphabetic string gets the non-numeric error. -/
theorem C5_luhn_validator_witness :
    luhn.Validate "4532015112830366" = none ∧
    luhn.Validate "4532015112830367" ≠ none ∧
    luhn.Validate "abcd" = some "pan contains non numeric or spaces" := by
  have h := C5_luhn_validator
  refine ⟨?_, ?_, ?_⟩
  · exact (h.2.2 "4532015112830366" (by decide) (by decide) (by decide)).mpr (by decide)
  · intro hv
    exact absurd ((h.2.2 "4532015112830367" (by decide) (by decide) (by decide)).mp hv)
      (by decide)
  · exact (h.1 "abcd").mp (by decide)

/-- C6, claim as frozen is FALSE on the code: the validator accepts the
bare test card number but rejects the same digits with space
separators — no whitespace normalization happens before the checksum;
only the store strips spaces when persisting the PAN. -/
theorem C6_counterexample :
    luhn.Validate "4532015112830366" = none ∧
    luhn.Validate "4532 0151 1283 0366" = some "pan contains non numeric or spaces" ∧
    stripSpaces "4532 0151 1283 0366" = "4532015112830366" := by
  refine ⟨?_, ?_, ?_⟩ <;> decide

/-- C6 (amended): the validator performs no whitespace normalization:
every input containing a space fails with the non-numeric error, and
Authorize on such a card number fails Unprocessable with the store
unchanged; spaces are stripped from the PAN only by the persistence
layer when storing the card. -/
theorem C6_validator_rejects_spaces :
    (∀ s : String, ' ' ∈ s.data →
      luhn.Validate s = some "pan contains non numeric or spaces") ∧
    (∀ (st : Store) (now f1 f2 : Nat) (auth : Authorization),
      ' ' ∈ auth.paymentSource.pan.data →
      serviceAuthorize st now f1 f2 auth =
        (Except.error (ServiceError.unprocessable "pan contains non numeric or spaces"), st)) := by
  have h1 : ∀ s : String, ' ' ∈ s.data →
      luhn.Validate s = some "pan contains non numeric or spaces" := fun s hsp =>
    (luhnValidate_nonNumeric_iff s).mp (atoi_none_of_space hsp)
  refine ⟨h1, ?_⟩
  intro st now f1 f2 auth hsp
  simp [serviceAuthorize, h1 _ hsp]

/-- Witness for C6_validator_rejects_spaces: the spaced test card number
is rejected by the validator and by Authorize on an empty store. -/
theorem C6_validator_rejects_spaces_witness :
    luhn.Validate "4532 0151 1283 0366" = some "pan contains non numeric or spaces" ∧
    serviceAuthorize [] 7 1 2 ⟨10, ⟨"4532 0151 1283 0366", "123", ⟨1, 30⟩⟩, ⟨10000, "GBP", 2⟩⟩ =
      (Except.error (ServiceError.unprocessable "pan contains non numeric or spaces"),
        ([] : Store)) := by
  have h := C6_validator_rejects_spaces
  exact ⟨h.1 "4532 0151 1283 0366" (by decide),
    h.2 [] 7 1 2 ⟨10, ⟨"4532 0151 1283 0366", "123", ⟨1, 30⟩⟩, ⟨10000, "GBP", 2⟩⟩ (by decide)⟩
